import Mathlib

/-!
Verification of the execution-session logic of `src/src/components/PythonEditor.tsx`
(the `PythonEditor` React component embedding a Pyodide engine).

The component's state hooks (`output`, `plots`, `isLoading`, `isRunning`,
`pyodide`, `status`, `currentCode`) are embedded as a Lean structure, and the
three functions `initPyodide`, `runPython` and `handleEditorChange` are
translated as state transformers.  The external Python engine (Pyodide +
matplotlib) is not part of the repository; executing a source text is modelled
by a denotation function `sem : String → List PyCmd` giving the sequence of
observable effects (prints to the redirected stdout, figure creations, a raised
error) that the engine performs for that text.
-/

namespace PythonEditor

/-- One observable effect of executing Python source against the engine:
a write to `sys.stdout`, the creation of a matplotlib figure (identified by a
payload drawn as that figure's content), or a raised error carrying a message. -/
inductive PyCmd where
  | print (s : String)
  | mkFigure (f : Nat)
  | raiseErr (msg : String)
deriving Repr, DecidableEq

/-- The engine-side state that the component's scripts manipulate:
whether `sys.stdout` has been replaced by a `StringIO` (the script
`sys.stdout = StringIO()` at the top of `runPython`), the contents of that
buffer, and the list of currently open matplotlib figures in creation order
(`plt.get_fignums()` enumerates them in this order). -/
structure EngineState where
  redirected : Bool
  buffer : String
  figures : List Nat
deriving Repr, DecidableEq

/-- A freshly loaded engine, as produced by `loadPyodide` +
`loadPackage(["numpy","matplotlib"])` + `plt.switch_backend('agg')`:
stdout not yet redirected, no figures open. -/
def freshEngine : EngineState :=
  { redirected := false, buffer := "", figures := [] }

/-- Run a list of effects against the engine.  A print appends to the
redirected buffer (when the redirection is in place); a figure creation appends
to the open-figure list; a raised error aborts the rest of the list and is
reported.  Returns the engine state reached together with the error, if any. -/
def execCmds : List PyCmd → EngineState → EngineState × Option String
  | [], e => (e, none)
  | PyCmd.print s :: rest, e =>
      execCmds rest
        (if e.redirected then { e with buffer := e.buffer ++ s } else e)
  | PyCmd.mkFigure f :: rest, e =>
      execCmds rest { e with figures := e.figures ++ [f] }
  | PyCmd.raiseErr m :: _, e => (e, some m)

/-- The figures a command list creates, in creation order, ignoring any error
(figures created before the error are still open). -/
def createdFigs : List PyCmd → List Nat
  | [] => []
  | PyCmd.mkFigure f :: rest => f :: createdFigs rest
  | PyCmd.raiseErr _ :: _ => []
  | _ :: rest => createdFigs rest

/-- The serialization parameters of the figure-drain script:
`fig.savefig(buf, format='png', dpi=100, bbox_inches='tight')`. -/
structure SaveParams where
  format : String
  dpi : Nat
  bbox : String
deriving Repr, DecidableEq

/-- The fixed parameters the drain script passes to `savefig`. -/
def savefigParams : SaveParams :=
  { format := "png", dpi := 100, bbox := "tight" }

/-- Modelled from the spec: the external engine's deterministic raster
serialization of one figure (`savefig` to PNG at fixed dpi and bounding box,
then base64-encoded).  The repository does not contain matplotlib; the spec
requires this encoding to be a fixed deterministic function of the figure and
the parameters, which is all the model needs. -/
def serializeFig (p : SaveParams) (f : Nat) : String :=
  p.format ++ "/" ++ toString p.dpi ++ "/" ++ p.bbox ++ "/fig" ++ toString f

/-- The React component's state hooks, in declaration order
(`output`, `plots`, `isLoading`, `isRunning`, `pyodide`, `status`,
`currentCode`). -/
structure CState where
  output : String
  plots : List String
  isLoading : Bool
  isRunning : Bool
  pyodide : Option EngineState
  status : String
  currentCode : String
deriving Repr, DecidableEq

/-- The initial hook values: `useState("")`, `useState<string[]>([])`,
`useState(true)`, `useState(false)`, `useState<PyodideInterface|null>(null)`,
`useState("Initializing...")`, `useState(defaultCode)` (the concrete default
source text is irrelevant to the claims and kept abstract as a constant). -/
def initialState (defaultCode : String) : CState :=
  { output := "", plots := [], isLoading := true, isRunning := false,
    pyodide := none, status := "Initializing...", currentCode := defaultCode }

/-- `initPyodide`: the loader either succeeds with a fresh engine — store it,
clear `isLoading`, set status `"Ready!"` — or throws: the catch block only sets
the status to `Error: ...`; `isLoading` stays `true` and `pyodide` stays
`null`.  The load outcome is a parameter since the network fetch is external. -/
def initPyodide (res : Except String EngineState) (st : CState) : CState :=
  match res with
  | Except.ok e =>
      { st with pyodide := some e, isLoading := false, status := "Ready!" }
  | Except.error m =>
      { st with status := "Error: " ++ m }

/-- An observation of the component's rendered output area: the pair of the
`output` text and the `plots` list, re-rendered after each state update that
is flushed at an `await` boundary inside `runPython`. -/
abbrev Obs := String × List String

/-- `runPython`, returning the final state together with the list of
observable `(output, plots)` renders it causes, in order.  Translated line by
line from the source:
  * `if (!pyodide) return;`
  * `setIsRunning(true); setOutput("Running..."); setPlots([]);`
  * `sys.stdout = StringIO()` — redirection installed, fresh empty buffer;
  * `await pyodide.runPythonAsync(currentCode)` — the user program runs;
  * on success: `setOutput(stdout || "Execution completed")`, then the drain
    script serializes every open figure in order and closes each
    (`plt.close(fig)`), then `setPlots(figures)`;
  * on error: `setOutput("Error: " + message)` — the drain never runs, so
    figures stay open; `plots` keeps the `[]` set at the start;
  * `finally { setIsRunning(false) }`.
The redirection is never removed on any path. -/
def runPythonT (sem : String → List PyCmd) (st : CState) : CState × List Obs :=
  match st.pyodide with
  | none => (st, [])
  | some eng =>
      let st1 : CState :=
        { st with isRunning := true, output := "Running...", plots := [] }
      let eng1 : EngineState := { eng with redirected := true, buffer := "" }
      match execCmds (sem st.currentCode) eng1 with
      | (eng2, none) =>
          let stdout := eng2.buffer
          let out := if stdout = "" then "Execution completed" else stdout
          let figs := eng2.figures.map (serializeFig savefigParams)
          let eng3 : EngineState := { eng2 with figures := [] }
          let stFin : CState :=
            { st1 with output := out, plots := figs,
                       pyodide := some eng3, isRunning := false }
          (stFin, [(st1.output, st1.plots), (out, st1.plots), (out, figs)])
      | (eng2, some m) =>
          let stFin : CState :=
            { st1 with output := "Error: " ++ m,
                       pyodide := some eng2, isRunning := false }
          (stFin, [(st1.output, st1.plots), (stFin.output, stFin.plots)])

/-- The state reached by one call of `runPython`. -/
def runPython (sem : String → List PyCmd) (st : CState) : CState :=
  (runPythonT sem st).1

/-- The user-facing submit action: the Run button is rendered only when
`!isLoading` and is `disabled={isRunning}`, so a click while loading or running
does nothing; otherwise it invokes `runPython`. -/
def submit (sem : String → List PyCmd) (st : CState) : CState :=
  if st.isLoading ∨ st.isRunning then st else runPython sem st

/-- `handleEditorChange`: `if (value) setCurrentCode(value)` — an `undefined`
or empty (falsy) value leaves `currentCode` unchanged. -/
def handleEditorChange (value : Option String) (st : CState) : CState :=
  match value with
  | none => st
  | some v => if v = "" then st else { st with currentCode := v }

/-- The spec's `SessionPhase`, projected from the hook state: `Running` while
a run is in flight; while `isLoading`, `Failed` once the status records a load
error, else `Loading`; otherwise `Ready`. -/
inductive SessionPhase where
  | loading
  | ready
  | running
  | failed
deriving Repr, DecidableEq

/-- Boolean prefix test on the underlying character lists (the component's
status strings are plain ASCII, so this agrees with byte-level prefixing). -/
def strHasPrefix (p s : String) : Bool :=
  p.data.isPrefixOf s.data

/-- The phase the UI presents: the header shows the spinner with the status
while `isLoading` (a status starting with `"Error: "` being the failed load),
and otherwise the Run button, disabled while `isRunning`. -/
def phase (st : CState) : SessionPhase :=
  if st.isRunning then SessionPhase.running
  else if st.isLoading then
    if strHasPrefix "Error: " st.status then SessionPhase.failed
    else SessionPhase.loading
  else SessionPhase.ready

/-- A component state that has finished loading successfully and holds the
given source text: the initial state after `initPyodide` succeeded with a
freshly loaded engine. -/
def readyState (code : String) : CState :=
  initPyodide (Except.ok freshEngine) (initialState code)

/-- Modelled from the spec: the external Python engine's observable behaviour
on the concrete scenario source texts the spec uses (the Python interpreter is
not part of the repository).  `print(1+1)` writes `"2\n"` to stdout;
`print('ok')` writes `"ok\n"`; `raise ValueError('x')` raises with a message
containing `x`; `plt.figure()` opens one figure; the remaining entries combine
these.  Unknown texts do nothing. -/
def pySem : String → List PyCmd
  | "print(1+1)" => [PyCmd.print "2\n"]
  | "print('ok')" => [PyCmd.print "ok\n"]
  | "raise ValueError('x')" => [PyCmd.raiseErr "ValueError: x"]
  | "plt.figure()" => [PyCmd.mkFigure 1]
  | "plt.figure()\nplt.figure()" => [PyCmd.mkFigure 1, PyCmd.mkFigure 2]
  | "plt.figure()\nraise ValueError('x')" =>
      [PyCmd.mkFigure 1, PyCmd.raiseErr "ValueError: x"]
  | "print('hi')\nraise RuntimeError('boom')" =>
      [PyCmd.print "hi\n", PyCmd.raiseErr "RuntimeError: boom"]
  | "print('hi')\nplt.figure()" => [PyCmd.print "hi\n", PyCmd.mkFigure 1]
  | _ => []

/-! ### Basic lemmas about the embedding -/

/-- Executing commands never touches the stdout redirection flag. -/
theorem execCmds_redirected (prog : List PyCmd) (e : EngineState) :
    (execCmds prog e).1.redirected = e.redirected := by
  induction prog generalizing e with
  | nil => rfl
  | cons c rest ih =>
    cases c with
    | print s =>
      simp only [execCmds]
      rw [ih]
      by_cases h : e.redirected <;> simp [h]
    | mkFigure f => simpa [execCmds] using ih _
    | raiseErr m => rfl

/-- After executing a command list, the open figures are the initial ones
followed by the figures the list created (in creation order), whether or not
the execution raised. -/
theorem execCmds_figures (prog : List PyCmd) (e : EngineState) :
    (execCmds prog e).1.figures = e.figures ++ createdFigs prog := by
  induction prog generalizing e with
  | nil => simp [execCmds, createdFigs]
  | cons c rest ih =>
    cases c with
    | print s =>
      simp only [execCmds, createdFigs]
      rw [ih]
      by_cases h : e.redirected <;> simp [h]
    | mkFigure f =>
      simp only [execCmds, createdFigs]
      rw [ih]
      simp
    | raiseErr m => simp [execCmds, createdFigs]

/-- A string prefixed to anything passes the prefix test. -/
theorem strHasPrefix_append (p m : String) :
    strHasPrefix p (p ++ m) = true := by
  simp [strHasPrefix, String.data_append, List.isPrefixOf_iff_prefix,
    List.prefix_append]

/-- Characterization of `runPythonT` when the user program raises: the catch
block records only `Error: message`, `plots` keeps the `[]` installed at run
start, the engine is kept as execution left it (figures not closed), and two
renders are observed. -/
theorem runPythonT_error_eq (sem : String → List PyCmd) (st : CState)
    (eng e2 : EngineState) (m : String) (h : st.pyodide = some eng)
    (r : execCmds (sem st.currentCode)
      { eng with redirected := true, buffer := "" } = (e2, some m)) :
    runPythonT sem st =
      ({ st with output := "Error: " ++ m, plots := [],
                 isRunning := false, pyodide := some e2 },
       [("Running...", []), ("Error: " ++ m, [])]) := by
  simp [runPythonT, h, r]

/-- Characterization of `runPythonT` when the user program completes: the
buffer is read back (with the placeholder for empty output), every open figure
is serialized in order and then closed, and three renders are observed. -/
theorem runPythonT_success_eq (sem : String → List PyCmd) (st : CState)
    (eng e2 : EngineState) (h : st.pyodide = some eng)
    (r : execCmds (sem st.currentCode)
      { eng with redirected := true, buffer := "" } = (e2, none)) :
    runPythonT sem st =
      ({ st with
          output := if e2.buffer = "" then "Execution completed" else e2.buffer,
          plots := e2.figures.map (serializeFig savefigParams),
          isRunning := false, pyodide := some { e2 with figures := [] } },
       [("Running...", []),
        (if e2.buffer = "" then "Execution completed" else e2.buffer, []),
        (if e2.buffer = "" then "Execution completed" else e2.buffer,
          e2.figures.map (serializeFig savefigParams))]) := by
  simp [runPythonT, h, r]

/-- `runPython` on the error path, as a full-state equation. -/
theorem runPython_error_eq (sem : String → List PyCmd) (st : CState)
    (eng e2 : EngineState) (m : String) (h : st.pyodide = some eng)
    (r : execCmds (sem st.currentCode)
      { eng with redirected := true, buffer := "" } = (e2, some m)) :
    runPython sem st =
      { st with output := "Error: " ++ m, plots := [],
                isRunning := false, pyodide := some e2 } := by
  unfold runPython
  rw [runPythonT_error_eq sem st eng e2 m h r]

/-- `runPython` on the success path, as a full-state equation. -/
theorem runPython_success_eq (sem : String → List PyCmd) (st : CState)
    (eng e2 : EngineState) (h : st.pyodide = some eng)
    (r : execCmds (sem st.currentCode)
      { eng with redirected := true, buffer := "" } = (e2, none)) :
    runPython sem st =
      { st with
          output := if e2.buffer = "" then "Execution completed" else e2.buffer,
          plots := e2.figures.map (serializeFig savefigParams),
          isRunning := false, pyodide := some { e2 with figures := [] } } := by
  unfold runPython
  rw [runPythonT_success_eq sem st eng e2 h r]

/-- After any run with a live engine, the session is back in `Ready` phase
(provided it was not in the loading phase). -/
theorem phase_runPython_ready (sem : String → List PyCmd) (st : CState)
    (eng : EngineState) (hL : st.isLoading = false)
    (h : st.pyodide = some eng) :
    phase (runPython sem st) = SessionPhase.ready := by
  rcases hE : execCmds (sem st.currentCode)
      { eng with redirected := true, buffer := "" } with ⟨e2, res⟩
  cases res with
  | none => rw [runPython_success_eq sem st eng e2 h hE]; simp [phase, hL]
  | some m => rw [runPython_error_eq sem st eng e2 m h hE]; simp [phase, hL]

/-- A session that is past loading can never show the `failed` phase after a
submit: the failed phase requires `isLoading`, which no run path sets. -/
theorem phase_submit_ne_failed (sem : String → List PyCmd) (st : CState)
    (hL : st.isLoading = false) :
    phase (submit sem st) ≠ SessionPhase.failed := by
  by_cases hR : st.isRunning
  · simp [submit, hL, hR, phase]
  · rcases hP : st.pyodide with _ | eng
    · simp [submit, hL, hR, runPython, runPythonT, hP, phase]
    · rw [show submit sem st = runPython sem st by simp [submit, hL, hR]]
      rw [phase_runPython_ready sem st eng hL hP]
      simp

/-- Every serialized image a run publishes was produced by `savefig` at the
fixed parameters. -/
theorem runPython_plots_serialized (sem : String → List PyCmd) (st : CState)
    (eng : EngineState) (h : st.pyodide = some eng) :
    ∀ img ∈ (runPython sem st).plots, ∃ f, img = serializeFig savefigParams f := by
  rcases hE : execCmds (sem st.currentCode)
      { eng with redirected := true, buffer := "" } with ⟨e2, res⟩
  cases res with
  | none =>
    rw [runPython_success_eq sem st eng e2 h hE]
    intro img hmem
    simp only [List.mem_map] at hmem
    rcases hmem with ⟨f, _, hf⟩
    exact ⟨f, hf.symm⟩
  | some m =>
    rw [runPython_error_eq sem st eng e2 m h hE]
    intro img hmem
    simp at hmem

/-! ### Claim C1 -/

/-- C1, as stated, is false on the code: if submission `s1` creates one figure
and then raises, the catch path skips the figure-drain script, so the figure
stays open and a next submission `s2 = "print('ok')"` that creates no figures
returns a nonempty `images` list (the leaked figure), not `[]`. -/
theorem C1_counterexample :
    (submit pySem (handleEditorChange (some "print('ok')")
        (submit pySem
          (readyState "plt.figure()\nraise ValueError('x')")))).plots ≠ [] := by
  decide

/-- C1 (amended): on the success exit path every open figure is closed, so an
`s1` that creates a figure and succeeds leaves none behind; but on the error
exit path the figures the run created stay open (they leak into the next
run's images), and the stdout redirection is removed on neither path — each
run instead installs a fresh empty buffer at its start. -/
theorem C1_cleanup_paths (sem : String → List PyCmd) (st : CState)
    (eng : EngineState) (h : st.pyodide = some eng) :
    (∀ e2, execCmds (sem st.currentCode)
        { eng with redirected := true, buffer := "" } = (e2, none) →
      (runPython sem st).pyodide = some { e2 with figures := [] }) ∧
    (∀ e2 m, execCmds (sem st.currentCode)
        { eng with redirected := true, buffer := "" } = (e2, some m) →
      (runPython sem st).pyodide = some e2 ∧
      e2.figures = eng.figures ++ createdFigs (sem st.currentCode)) ∧
    (∀ e, (runPython sem st).pyodide = some e → e.redirected = true) := by
  refine ⟨?_, ?_, ?_⟩
  · intro e2 hE
    rw [runPython_success_eq sem st eng e2 h hE]
  · intro e2 m hE
    have hfig := execCmds_figures (sem st.currentCode)
      { eng with redirected := true, buffer := "" }
    rw [hE] at hfig
    refine ⟨by rw [runPython_error_eq sem st eng e2 m h hE], by simpa using hfig⟩
  · intro e hE2
    have hred := execCmds_redirected (sem st.currentCode)
      { eng with redirected := true, buffer := "" }
    rcases hE : execCmds (sem st.currentCode)
        { eng with redirected := true, buffer := "" } with ⟨e2, res⟩
    rw [hE] at hred
    cases res with
    | none =>
      rw [runPython_success_eq sem st eng e2 h hE] at hE2
      simp only [Option.some.injEq] at hE2
      rw [← hE2]
      simpa using hred
    | some m =>
      rw [runPython_error_eq sem st eng e2 m h hE] at hE2
      simp only [Option.some.injEq] at hE2
      rw [← hE2]
      simpa using hred

/-- Witness for C1: the amended statement instantiated on the scenario where
`s1` creates one figure and raises — the leaked figure is exactly the engine's
open-figure list after the error. -/
theorem C1_cleanup_paths_witness :
    (runPython pySem (readyState "plt.figure()\nraise ValueError('x')")).pyodide
      = some { redirected := true, buffer := "", figures := [1] } ∧
    ({ redirected := true, buffer := "", figures := [1] } : EngineState).figures
      = freshEngine.figures ++
        createdFigs (pySem
          (readyState "plt.figure()\nraise ValueError('x')").currentCode) :=
  (C1_cleanup_paths pySem (readyState "plt.figure()\nraise ValueError('x')")
      freshEngine rfl).2.1
    { redirected := true, buffer := "", figures := [1] } "ValueError: x"
    (by decide)

/-! ### Claim C2 -/

/-- C2, as stated, is false on the code: for a program that prints `hi` and
then raises, the catch block builds the result from the error message alone
(`setOutput("Error: " + message)`), so the partial stdout `"hi\n"` written
before the error is not contained in the returned output. -/
theorem C2_counterexample :
    (submit pySem (readyState "print('hi')\nraise RuntimeError('boom')")).output
      = "Error: RuntimeError: boom" ∧
    ¬ List.IsInfix "hi\n".data
      (submit pySem
        (readyState "print('hi')\nraise RuntimeError('boom')")).output.data := by
  constructor
  · decide
  · decide

/-- C2 (amended): any error raised while executing the source is caught — the
run completes normally with `isRunning` reset — the result records only
`"Error: " ++ message` with an empty images list, the partially-written stdout
is discarded from the result (it survives only in the engine's internal
buffer), and the engine itself remains alive, the session returning to the
ready phase, so the next run can proceed. -/
theorem C2_error_result (sem : String → List PyCmd) (st : CState)
    (eng e2 : EngineState) (m : String) (h : st.pyodide = some eng)
    (r : execCmds (sem st.currentCode)
      { eng with redirected := true, buffer := "" } = (e2, some m)) :
    runPython sem st =
      { st with output := "Error: " ++ m, plots := [],
                isRunning := false, pyodide := some e2 } ∧
    (st.isLoading = false → phase (runPython sem st) = SessionPhase.ready) :=
  ⟨runPython_error_eq sem st eng e2 m h r,
   fun hL => phase_runPython_ready sem st eng hL h⟩

/-- Witness for C2: the amended statement instantiated on the
print-then-raise scenario. -/
theorem C2_error_result_witness :
    runPython pySem (readyState "print('hi')\nraise RuntimeError('boom')") =
      { readyState "print('hi')\nraise RuntimeError('boom')" with
          output := "Error: RuntimeError: boom", plots := [],
          isRunning := false,
          pyodide := some { redirected := true, buffer := "hi\n", figures := [] } } ∧
    ((readyState "print('hi')\nraise RuntimeError('boom')").isLoading = false →
      phase (runPython pySem
        (readyState "print('hi')\nraise RuntimeError('boom')"))
        = SessionPhase.ready) :=
  C2_error_result pySem (readyState "print('hi')\nraise RuntimeError('boom')")
    freshEngine { redirected := true, buffer := "hi\n", figures := [] }
    "RuntimeError: boom" rfl (by decide)

/-! ### Claim C3 -/

/-- C3: a run that fails with a runtime error returns the session phase to
`Ready` (never `Failed`) with the error recorded as the current result; a
subsequent submit from that state is admitted (executes `runPython` rather
than being ignored), ends back in `Ready`, and — when its own execution
succeeds — records the new run's output; and from any state past loading, no
submit can reach the `Failed` phase, which is reachable only while loading. -/
theorem C3_runtime_error_returns_ready (sem sem2 : String → List PyCmd)
    (st : CState) (eng e2 e3 : EngineState) (m : String)
    (hL : st.isLoading = false) (h : st.pyodide = some eng)
    (r : execCmds (sem st.currentCode)
      { eng with redirected := true, buffer := "" } = (e2, some m))
    (r2 : execCmds (sem2 st.currentCode)
      { e2 with redirected := true, buffer := "" } = (e3, none)) :
    phase (runPython sem st) = SessionPhase.ready ∧
    (runPython sem st).output = "Error: " ++ m ∧
    submit sem2 (runPython sem st) = runPython sem2 (runPython sem st) ∧
    phase (submit sem2 (runPython sem st)) = SessionPhase.ready ∧
    (submit sem2 (runPython sem st)).output =
      (if e3.buffer = "" then "Execution completed" else e3.buffer) ∧
    (∀ semx stx, stx.isLoading = false →
      phase (submit semx stx) ≠ SessionPhase.failed) := by
  have hst : runPython sem st =
      { st with output := "Error: " ++ m, plots := [],
                isRunning := false, pyodide := some e2 } :=
    runPython_error_eq sem st eng e2 m h r
  have hsub : submit sem2 (runPython sem st) = runPython sem2 (runPython sem st) := by
    rw [hst]; simp [submit, hL]
  have hst2 : runPython sem2 (runPython sem st) =
      { (runPython sem st) with
          output := if e3.buffer = "" then "Execution completed" else e3.buffer,
          plots := e3.figures.map (serializeFig savefigParams),
          isRunning := false, pyodide := some { e3 with figures := [] } } := by
    refine runPython_success_eq sem2 (runPython sem st) e2 e3 ?_ ?_
    · rw [hst]
    · rw [hst]; exact r2
  refine ⟨phase_runPython_ready sem st eng hL h, by rw [hst], hsub, ?_, ?_, ?_⟩
  · rw [hsub]
    refine phase_runPython_ready sem2 (runPython sem st) e2 ?_ ?_ <;> rw [hst]
    exact hL
  · rw [hsub, hst2]
  · intro semx stx hLx
    exact phase_submit_ne_failed semx stx hLx

/-- Witness for C3: the raise-then-resubmit scenario — `raise ValueError('x')`
fails, the session returns to ready, and the next submit (here against an
engine semantics in which the resubmitted text prints `2`) is admitted and
succeeds, recording the new run's stdout. -/
theorem C3_runtime_error_returns_ready_witness :
    phase (runPython pySem (readyState "raise ValueError('x')"))
      = SessionPhase.ready ∧
    (runPython pySem (readyState "raise ValueError('x')")).output
      = "Error: " ++ "ValueError: x" ∧
    submit (fun _ => [PyCmd.print "2\n"])
        (runPython pySem (readyState "raise ValueError('x')"))
      = runPython (fun _ => [PyCmd.print "2\n"])
          (runPython pySem (readyState "raise ValueError('x')")) ∧
    phase (submit (fun _ => [PyCmd.print "2\n"])
        (runPython pySem (readyState "raise ValueError('x')")))
      = SessionPhase.ready ∧
    (submit (fun _ => [PyCmd.print "2\n"])
        (runPython pySem (readyState "raise ValueError('x')"))).output
      = (if ({ redirected := true, buffer := "2\n",
               figures := [] } : EngineState).buffer = ""
         then "Execution completed"
         else ({ redirected := true, buffer := "2\n",
                 figures := [] } : EngineState).buffer) ∧
    (∀ semx stx, stx.isLoading = false →
      phase (submit semx stx) ≠ SessionPhase.failed) :=
  C3_runtime_error_returns_ready pySem (fun _ => [PyCmd.print "2\n"])
    (readyState "raise ValueError('x')")
    freshEngine { redirected := true, buffer := "", figures := [] }
    { redirected := true, buffer := "2\n", figures := [] }
    "ValueError: x" rfl rfl (by decide) (by decide)

/-! ### Claim C4 -/

/-- C4: while the session phase is `Running`, the Run button is disabled, so a
second submit is ignored — it leaves the state unchanged, and in particular
the in-flight run's eventual outcome, computed from that same state, is
unaffected. -/
theorem C4_submit_while_running (sem sem2 : String → List PyCmd) (st : CState)
    (h : phase st = SessionPhase.running) :
    submit sem st = st ∧
    runPythonT sem2 (submit sem st) = runPythonT sem2 st := by
  have hR : st.isRunning = true := by
    by_cases hr : st.isRunning
    · exact hr
    · exfalso
      simp only [phase, hr, if_false] at h
      by_cases hl : st.isLoading <;> simp [hl] at h
      by_cases hp : strHasPrefix "Error: " st.status <;> simp [hp] at h
  have hs : submit sem st = st := by simp [submit, hR]
  exact ⟨hs, by rw [hs]⟩

/-- Witness for C4: a concrete mid-run state (the ready state with
`isRunning` set, as `runPython` sets it at admission) absorbs a second
submit without change. -/
theorem C4_submit_while_running_witness :
    submit pySem { readyState "print(1+1)" with isRunning := true }
      = { readyState "print(1+1)" with isRunning := true } ∧
    runPythonT pySem
        (submit pySem { readyState "print(1+1)" with isRunning := true })
      = runPythonT pySem { readyState "print(1+1)" with isRunning := true } :=
  C4_submit_while_running pySem pySem
    { readyState "print(1+1)" with isRunning := true } (by decide)

/-! ### Claim C5 -/

/-- C5: when engine loading fails, the session shows the `Failed` phase with
no engine handle stored; a submit in that state is ignored (the button is not
rendered while `isLoading`), the phase stays `Failed`, and even a direct
`runPython` call would return immediately without invoking any engine or
producing any render. -/
theorem C5_load_failure_terminal (m code : String) (sem : String → List PyCmd) :
    phase (initPyodide (Except.error m) (initialState code))
      = SessionPhase.failed ∧
    (initPyodide (Except.error m) (initialState code)).pyodide = none ∧
    submit sem (initPyodide (Except.error m) (initialState code))
      = initPyodide (Except.error m) (initialState code) ∧
    phase (submit sem (initPyodide (Except.error m) (initialState code)))
      = SessionPhase.failed ∧
    runPythonT sem (initPyodide (Except.error m) (initialState code))
      = (initPyodide (Except.error m) (initialState code), []) := by
  have hph : phase (initPyodide (Except.error m) (initialState code))
      = SessionPhase.failed := by
    simp [phase, initPyodide, initialState, strHasPrefix_append]
  have hsub : submit sem (initPyodide (Except.error m) (initialState code))
      = initPyodide (Except.error m) (initialState code) := by
    simp [submit, initPyodide, initialState]
  refine ⟨hph, rfl, hsub, ?_, ?_⟩
  · rw [hsub]; exact hph
  · simp [runPythonT, initPyodide, initialState]

/-! ### Claim C6 -/

/-- C6: submitting `print(1+1)` against a ready engine yields stdout `"2\n"`
and no images. -/
theorem C6_print_scenario :
    (submit pySem (readyState "print(1+1)")).output = "2\n" ∧
    (submit pySem (readyState "print(1+1)")).plots = [] := by
  constructor
  · decide
  · decide

/-! ### Claim C7 -/

/-- C7: on a successful run the published images are exactly one serialized
image per figure the engine holds open, in order — and those open figures are
the initial ones followed by the ones the run created, in creation order, so
from a clean engine two figure creations give two images; with a clean engine
and zero figure creations the images list is empty and the output text is
non-empty (the empty stdout is replaced by the placeholder). -/
theorem C7_images_match_figures (sem : String → List PyCmd) (st : CState)
    (eng e2 : EngineState) (h : st.pyodide = some eng)
    (r : execCmds (sem st.currentCode)
      { eng with redirected := true, buffer := "" } = (e2, none)) :
    (runPython sem st).plots = e2.figures.map (serializeFig savefigParams) ∧
    e2.figures = eng.figures ++ createdFigs (sem st.currentCode) ∧
    (eng.figures = [] → createdFigs (sem st.currentCode) = [] →
      (runPython sem st).plots = [] ∧ (runPython sem st).output ≠ "") := by
  have hfig := execCmds_figures (sem st.currentCode)
    { eng with redirected := true, buffer := "" }
  rw [r] at hfig
  simp only at hfig
  have hrun := runPython_success_eq sem st eng e2 h r
  refine ⟨by rw [hrun], hfig, ?_⟩
  intro h0 hc
  rw [hrun]
  constructor
  · simp [hfig, h0, hc]
  · by_cases hb : e2.buffer = "" <;> simp [hb]

/-- Witness for C7: two figure creations from a clean engine give exactly the
two serialized images in creation order. -/
theorem C7_images_match_figures_witness :
    (runPython pySem (readyState "plt.figure()\nplt.figure()")).plots
      = ({ redirected := true, buffer := "",
           figures := [1, 2] } : EngineState).figures.map
          (serializeFig savefigParams) ∧
    ({ redirected := true, buffer := "",
       figures := [1, 2] } : EngineState).figures
      = freshEngine.figures ++
        createdFigs (pySem
          (readyState "plt.figure()\nplt.figure()").currentCode) ∧
    (freshEngine.figures = [] →
      createdFigs (pySem
        (readyState "plt.figure()\nplt.figure()").currentCode) = [] →
      (runPython pySem (readyState "plt.figure()\nplt.figure()")).plots = [] ∧
      (runPython pySem (readyState "plt.figure()\nplt.figure()")).output ≠ "") :=
  C7_images_match_figures pySem (readyState "plt.figure()\nplt.figure()")
    freshEngine { redirected := true, buffer := "", figures := [1, 2] }
    rfl (by decide)

/-! ### Claim C8 -/

/-- C8, as stated, is false on the code: the overwrite is not atomic.  After a
completed run of `print(1+1)` (current result `("2\n", [])`), a second run
that prints `hi` and creates a figure causes an intermediate render
`("hi\n", [])` — the new run's stdout paired with an images list that is
neither the previous result's nor the new run's — so an observer does not see
only the outcome of the most recently completed submit. -/
theorem C8_counterexample :
    ("hi\n", ([] : List String)) ∈
      (runPythonT pySem (handleEditorChange (some "print('hi')\nplt.figure()")
        (submit pySem (readyState "print(1+1)")))).2 ∧
    ("hi\n", ([] : List String)) ≠
      ((submit pySem (readyState "print(1+1)")).output,
       (submit pySem (readyState "print(1+1)")).plots) ∧
    ("hi\n", ([] : List String)) ≠
      (((runPythonT pySem (handleEditorChange (some "print('hi')\nplt.figure()")
          (submit pySem (readyState "print(1+1)")))).1).output,
       ((runPythonT pySem (handleEditorChange (some "print('hi')\nplt.figure()")
          (submit pySem (readyState "print(1+1)")))).1).plots) := by
  refine ⟨?_, ?_, ?_⟩
  · decide
  · decide
  · decide

/-- C8 (amended): exactly one result is current per session and, once the run
has ended, it is the completed run's full output — the last observable render
equals the final state's `(output, plots)` and `isRunning` is cleared.  The
overwrite is not atomic: intermediate renders occur during the run, but since
`plots` is cleared at run start, every render shows either an empty images
list or the new run's complete images — never a previous run's images next to
the new run's stdout. -/
theorem C8_result_overwrite (sem : String → List PyCmd) (st : CState)
    (eng : EngineState) (h : st.pyodide = some eng) :
    ((runPythonT sem st).2).getLast?
      = some (((runPythonT sem st).1).output, ((runPythonT sem st).1).plots) ∧
    (∀ o ∈ (runPythonT sem st).2,
      o.2 = [] ∨ o.2 = ((runPythonT sem st).1).plots) ∧
    ((runPythonT sem st).1).isRunning = false := by
  rcases hE : execCmds (sem st.currentCode)
      { eng with redirected := true, buffer := "" } with ⟨e2, res⟩
  cases res with
  | none =>
    rw [runPythonT_success_eq sem st eng e2 h hE]
    refine ⟨rfl, ?_, rfl⟩
    intro o ho
    simp only [List.mem_cons, List.not_mem_nil, or_false] at ho
    rcases ho with ho | ho | ho <;> rw [ho] <;> simp
  | some m =>
    rw [runPythonT_error_eq sem st eng e2 m h hE]
    refine ⟨rfl, ?_, rfl⟩
    intro o ho
    simp only [List.mem_cons, List.not_mem_nil, or_false] at ho
    rcases ho with ho | ho <;> rw [ho] <;> simp

/-- Witness for C8: the amended statement instantiated on the
print-and-figure run. -/
theorem C8_result_overwrite_witness :
    ((runPythonT pySem (readyState "print('hi')\nplt.figure()")).2).getLast?
      = some (((runPythonT pySem
            (readyState "print('hi')\nplt.figure()")).1).output,
          ((runPythonT pySem
            (readyState "print('hi')\nplt.figure()")).1).plots) ∧
    (∀ o ∈ (runPythonT pySem (readyState "print('hi')\nplt.figure()")).2,
      o.2 = [] ∨ o.2 =
        ((runPythonT pySem (readyState "print('hi')\nplt.figure()")).1).plots) ∧
    ((runPythonT pySem
        (readyState "print('hi')\nplt.figure()")).1).isRunning = false :=
  C8_result_overwrite pySem (readyState "print('hi')\nplt.figure()")
    freshEngine rfl

/-! ### Claim C9 -/

/-- C9: executing any source text against two independently freshly-loaded
engines yields identical stdout text and identical image lists, and every
published image is produced by the drain script's `savefig` at the fixed
parameters (PNG format, dpi 100, tight bounding box) — there is no hidden
input to the serialization. -/
theorem C9_determinism (sem : String → List PyCmd) (code : String)
    (e1 e2 : EngineState) (h1 : e1 = freshEngine) (h2 : e2 = freshEngine) :
    (runPython sem (initPyodide (Except.ok e1) (initialState code))).output
      = (runPython sem (initPyodide (Except.ok e2) (initialState code))).output ∧
    (runPython sem (initPyodide (Except.ok e1) (initialState code))).plots
      = (runPython sem (initPyodide (Except.ok e2) (initialState code))).plots ∧
    (∀ img ∈ (runPython sem (initPyodide (Except.ok e1) (initialState code))).plots,
      ∃ f, img = serializeFig
        { format := "png", dpi := 100, bbox := "tight" } f) := by
  subst h1; subst h2
  refine ⟨rfl, rfl, ?_⟩
  exact runPython_plots_serialized sem
    (initPyodide (Except.ok freshEngine) (initialState code)) freshEngine rfl

/-- Witness for C9: two fresh sessions running the default figure-producing
scenario agree, and the image produced carries the fixed parameters. -/
theorem C9_determinism_witness :
    (runPython pySem (initPyodide (Except.ok freshEngine)
        (initialState "plt.figure()"))).output
      = (runPython pySem (initPyodide (Except.ok freshEngine)
          (initialState "plt.figure()"))).output ∧
    (runPython pySem (initPyodide (Except.ok freshEngine)
        (initialState "plt.figure()"))).plots
      = (runPython pySem (initPyodide (Except.ok freshEngine)
          (initialState "plt.figure()"))).plots ∧
    (∀ img ∈ (runPython pySem (initPyodide (Except.ok freshEngine)
        (initialState "plt.figure()"))).plots,
      ∃ f, img = serializeFig
        { format := "png", dpi := 100, bbox := "tight" } f) :=
  C9_determinism pySem "plt.figure()" freshEngine freshEngine rfl rfl

/-! ### Claim C10 -/

/-- C10: an editor change reporting `undefined` or the empty string leaves the
stored current code unchanged, so a subsequent submit behaves exactly as a
submit before the change — it re-executes the last non-empty source text. -/
theorem C10_empty_editor_change (v : Option String) (st : CState)
    (sem : String → List PyCmd) (h : v = none ∨ v = some "") :
    handleEditorChange v st = st ∧
    (handleEditorChange v st).currentCode = st.currentCode ∧
    submit sem (handleEditorChange v st) = submit sem st := by
  rcases h with h | h <;> subst h <;> simp [handleEditorChange]

/-- Witness for C10: deleting all text (the editor reports `""`) after a
run keeps `print(1+1)` as the code a subsequent submit executes. -/
theorem C10_empty_editor_change_witness :
    handleEditorChange (some "") (readyState "print(1+1)")
      = readyState "print(1+1)" ∧
    (handleEditorChange (some "") (readyState "print(1+1)")).currentCode
      = (readyState "print(1+1)").currentCode ∧
    submit pySem (handleEditorChange (some "") (readyState "print(1+1)"))
      = submit pySem (readyState "print(1+1)") :=
  C10_empty_editor_change (some "") (readyState "print(1+1)") pySem
    (Or.inr rfl)

end PythonEditor
